import Mathlib

/-!
Shallow embedding of the yapyo Arbitrum presale bot
(src/config.py, src/contracts.py, src/gas_optimizer.py, src/presale_bot.py).

Modelling conventions:
* On-chain uint256 quantities (wei amounts, gas prices, timestamps) are `Nat`.
* Python float / Decimal amounts (ETH values such as `TOKEN_AMOUNT`) are `Rat`;
  arithmetic is modelled exactly.  `web3.to_wei(x, 'ether')` is `x * 10^18`
  (raising, hence the guarded branches, when the argument is negative or the
  result exceeds 2^256 - 1, as eth_utils does), and `web3.from_wei(x, 'ether')`
  is `x / 10^18`.
* Every RPC call that can raise is an `Option` input supplied by the
  environment: `none` models the call raising an exception.
* Telegram notifications (`telegram_notifier.py`) never raise: `send_message`
  catches every exception internally and returns a Bool that all callers
  ignore, so notification calls are omitted from the embedding.
* Logging is side-effect free for the state we model and is omitted.
-/

/-- Configuration values from `src/config.py` that the modelled code reads.
Integer-valued env entries are `Nat`, the float `TOKEN_AMOUNT` is `Rat`. -/
structure Config where
  MAX_GAS_PRICE : Nat
  GAS_LIMIT : Nat
  PRIORITY_FEE : Nat
  TOKEN_AMOUNT : Rat
  MONITOR_INTERVAL : Nat
  WALLET_ADDRESS : String
  PRESALE_CONTRACT_ADDRESS : String
deriving DecidableEq, Repr

/-- The dictionary returned by `PresaleContracts.get_presale_info`
(src/contracts.py, lines 144-165): one field per contract view call. -/
structure PresaleInfo where
  token_address : String
  presale_start : Nat
  presale_end : Nat
  soft_cap : Nat
  hard_cap : Nat
  total_raised : Nat
  is_active : Bool
  token_price : Nat
deriving DecidableEq, Repr

/-- 2^256 - 1, the largest wei value `web3.to_wei` accepts before raising. -/
def MAX_WEI : Nat := 2 ^ 256 - 1

/-- `ArbitrumGasOptimizer.get_current_gas_price` (src/gas_optimizer.py,
lines 15-22).  `gasFetch = none` models `web3.eth.gas_price` raising, in which
case the except branch returns `config.MAX_GAS_PRICE`. -/
def get_current_gas_price (cfg : Config) (gasFetch : Option Nat) : Nat :=
  match gasFetch with
  | some gas_price => gas_price
  | none => cfg.MAX_GAS_PRICE

/-- `ArbitrumGasOptimizer.is_gas_acceptable` (src/gas_optimizer.py,
lines 114-116). -/
def is_gas_acceptable (cfg : Config) (gas_price : Nat) : Bool :=
  decide (gas_price ≤ cfg.MAX_GAS_PRICE)

/-- Result dictionary of `get_arbitrum_gas_estimate`. -/
structure GasEstimate where
  maxFeePerGas : Nat
  maxPriorityFeePerGas : Nat
deriving DecidableEq, Repr

/-- `ArbitrumGasOptimizer.get_arbitrum_gas_estimate` (src/gas_optimizer.py,
lines 24-46).  `baseFee = none` models `web3.eth.get_block('latest')` raising,
taken care of by the except branch. -/
def get_arbitrum_gas_estimate (cfg : Config) (baseFee : Option Nat) : GasEstimate :=
  match baseFee with
  | some base_fee =>
    { maxFeePerGas := min (base_fee + cfg.PRIORITY_FEE) cfg.MAX_GAS_PRICE
      maxPriorityFeePerGas := cfg.PRIORITY_FEE }
  | none =>
    { maxFeePerGas := cfg.MAX_GAS_PRICE
      maxPriorityFeePerGas := cfg.PRIORITY_FEE }

/-- Result dictionary of `optimize_gas_for_transaction`. -/
structure GasParams where
  gas : Nat
  maxFeePerGas : Nat
  maxPriorityFeePerGas : Nat
deriving DecidableEq, Repr

/-- `ArbitrumGasOptimizer.optimize_gas_for_transaction` (src/gas_optimizer.py,
lines 48-71).  `estimatedGas = none` models `web3.eth.estimate_gas` raising,
handled by the except branch.  `int(estimated_gas * 1.2)` is modelled in exact
arithmetic as `estimated_gas * 6 / 5` (floor). -/
def optimize_gas_for_transaction (cfg : Config) (estimatedGas : Option Nat)
    (baseFee : Option Nat) : GasParams :=
  match estimatedGas with
  | some estimated_gas =>
    let gas_limit := estimated_gas * 6 / 5
    let gas_params := get_arbitrum_gas_estimate cfg baseFee
    { gas := gas_limit
      maxFeePerGas := gas_params.maxFeePerGas
      maxPriorityFeePerGas := gas_params.maxPriorityFeePerGas }
  | none =>
    { gas := cfg.GAS_LIMIT
      maxFeePerGas := cfg.MAX_GAS_PRICE
      maxPriorityFeePerGas := cfg.PRIORITY_FEE }

/-- `ArbitrumPresaleBot.validate_presale_contract` (src/presale_bot.py,
lines 95-139).  `fetch = none` models `get_presale_info` raising (its only
failure mode, src/contracts.py line 165 re-raises); the except branch returns
`False`, modelled as `none`.  Otherwise the three checks run in source order:
not active, past `presale_end`, hard cap reached. -/
def validate_presale_contract (fetch : Option PresaleInfo) (current_time : Nat) :
    Option PresaleInfo :=
  match fetch with
  | none => none
  | some presale_info =>
    if presale_info.is_active = false then none
    else if presale_info.presale_end < current_time then none
    else if presale_info.hard_cap ≤ presale_info.total_raised then none
    else some presale_info

/-- `ArbitrumPresaleBot.calculate_optimal_buy_amount` (src/presale_bot.py,
lines 141-159).  `remaining = hard_cap - total_raised` is a wei difference;
the source then computes `min(config.TOKEN_AMOUNT, web3.to_wei(remaining,
'ether'))` and returns `web3.from_wei(max_buy, 'ether')`.  `to_wei` raises on
a negative argument or a result above 2^256 - 1, and any exception makes the
function return 0 via its except branch. -/
def calculate_optimal_buy_amount (cfg : Config) (presale_info : PresaleInfo) : Rat :=
  let remaining : Int := (presale_info.hard_cap : Int) - (presale_info.total_raised : Int)
  if remaining < 0 then 0
  else if (MAX_WEI : Int) < remaining * 10 ^ 18 then 0
  else
    let max_buy : Rat := min cfg.TOKEN_AMOUNT ((remaining : Rat) * 10 ^ 18)
    if max_buy ≤ 0 then 0
    else max_buy / 10 ^ 18

/-- `ArbitrumPresaleBot.check_wallet_balance` (src/presale_bot.py,
lines 73-93).  `balanceFetch = none` models `web3.eth.get_balance` raising;
otherwise the wei balance is converted to ETH and compared against
`config.TOKEN_AMOUNT + 0.01`. -/
def check_wallet_balance (cfg : Config) (balanceFetch : Option Nat) : Bool :=
  match balanceFetch with
  | none => false
  | some balance =>
    let balance_eth : Rat := (balance : Rat) / 10 ^ 18
    let required_amount : Rat := cfg.TOKEN_AMOUNT + 1 / 100
    if balance_eth < required_amount then false else true

/-- A record of `transaction_history` (src/presale_bot.py, lines 218-225).
The ISO timestamp string is omitted; `tx_hash` is the hash as a number. -/
structure TxRecord where
  tx_hash : Nat
  block_number : Nat
  gas_used : Nat
  eth_amount : Rat
  tokens_received : Rat
deriving DecidableEq, Repr

/-- Mutable bot state from `ArbitrumPresaleBot.__init__`
(src/presale_bot.py, lines 38-41); `is_running` is threaded separately. -/
structure BotState where
  last_transaction : Option TxRecord
  transaction_history : List TxRecord
deriving DecidableEq, Repr

/-- Initial bot state (src/presale_bot.py, lines 40-41). -/
def initBotState : BotState :=
  { last_transaction := none, transaction_history := [] }

/-- Return value of `get_status`. -/
structure BotStatus where
  is_running : Bool
  wallet_address : String
  presale_address : String
  last_transaction : Option TxRecord
  transaction_count : Nat
deriving DecidableEq, Repr

/-- `ArbitrumPresaleBot.get_status` (src/presale_bot.py, lines 361-369). -/
def get_status (cfg : Config) (is_running : Bool) (s : BotState) : BotStatus :=
  { is_running := is_running
    wallet_address := cfg.WALLET_ADDRESS
    presale_address := cfg.PRESALE_CONTRACT_ADDRESS
    last_transaction := s.last_transaction
    transaction_count := s.transaction_history.length }

/-- The transaction dictionary built by `build_buy_transaction`. -/
structure BuyTx where
  value : Nat
  gas : Nat
  gasPrice : Nat
  nonce : Nat
deriving DecidableEq, Repr

/-- `PresaleContracts.build_buy_transaction` (src/contracts.py, lines 187-204).
`nonceFetch = none` models the RPC calls made while building
(`get_transaction_count`, `build_transaction`) raising.  `value` is
`web3.to_wei(eth_amount, 'ether')`, i.e. the integer part of
`eth_amount * 10^18`. -/
def build_buy_transaction (cfg : Config) (eth_amount : Rat) (nonceFetch : Option Nat) :
    Option BuyTx :=
  match nonceFetch with
  | none => none
  | some nonce =>
    some { value := (⌊eth_amount * 10 ^ 18⌋ : Int).toNat
           gas := cfg.GAS_LIMIT
           gasPrice := cfg.MAX_GAS_PRICE
           nonce := nonce }

/-- `PresaleContracts.calculate_tokens_for_eth` (src/contracts.py,
lines 167-185).  `tokensPerEth = none` models `getTokensForEth()` raising;
the fallback uses `getTokenPrice()` (`tokenPrice = none` models it raising,
`some 0` the division raising), computing `(eth_amount * 10**18) //
token_price`.  When both fail the function re-raises, modelled as `none`. -/
def calculate_tokens_for_eth (tokensPerEth : Option Nat) (tokenPrice : Option Nat)
    (eth_amount : Rat) : Option Rat :=
  match tokensPerEth with
  | some tokens_per_eth => some ((tokens_per_eth : Rat) * eth_amount)
  | none =>
    match tokenPrice with
    | some token_price =>
      if token_price = 0 then none
      else some ((⌊(eth_amount * 10 ^ 18) / (token_price : Rat)⌋ : Int) : Rat)
    | none => none

/-- Transaction receipt as used by `execute_buy_transaction`. -/
structure Receipt where
  status : Nat
  blockNumber : Nat
  gasUsed : Nat
deriving DecidableEq, Repr

/-- Chain-facing outcomes of a single `execute_buy_transaction` attempt
(src/presale_bot.py, lines 161-238).  A `none` in an `Option` field models
the corresponding call raising; `signOk` and `sendOk` model
`sign_transaction` and `send_raw_transaction` succeeding. -/
structure ExecEnv where
  gasFetch : Option Nat
  nonceFetch : Option Nat
  estimatedGas : Option Nat
  baseFee : Option Nat
  signOk : Bool
  sendOk : Bool
  txHash : Nat
  receipt : Option Receipt
  tokensPerEth : Option Nat
  tokenPrice : Option Nat
deriving DecidableEq, Repr

/-- `ArbitrumPresaleBot.execute_buy_transaction` (src/presale_bot.py,
lines 161-238).  Returns the Bool result together with the updated bot
state.  Every exception inside the try block lands in the except branch,
which sends a (non-raising) failure notification and returns `False`, so
the function is total: no exception propagates.  On a status-1 receipt the
source still has to run `calculate_tokens_for_eth` (which re-raises on
failure) before recording the transaction and returning `True`. -/
def execute_buy_transaction (cfg : Config) (env : ExecEnv) (buy_amount : Rat)
    (s : BotState) : Bool × BotState :=
  let current_gas := get_current_gas_price cfg env.gasFetch
  match build_buy_transaction cfg buy_amount env.nonceFetch with
  | none => (false, s)
  | some transaction =>
    let gas_params := optimize_gas_for_transaction cfg env.estimatedGas env.baseFee
    let transaction2 := { transaction with gas := gas_params.gas }
    if env.signOk = false then (false, s)
    else if env.sendOk = false then (false, s)
    else
      match env.receipt with
      | none => (false, s)
      | some receipt =>
        if receipt.status = 1 then
          match calculate_tokens_for_eth env.tokensPerEth env.tokenPrice buy_amount with
          | none => (false, s)
          | some tokens_received =>
            let tx : TxRecord :=
              { tx_hash := env.txHash
                block_number := receipt.blockNumber
                gas_used := receipt.gasUsed
                eth_amount := buy_amount
                tokens_received := tokens_received }
            (true, { last_transaction := some tx
                     transaction_history := s.transaction_history ++ [tx] })
        else
          let _keep := (current_gas, transaction2)
          (false, s)

/-- Environment for one iteration of the monitoring loop: the fresh poll of
the presale contract (`fetch`, with `none` modelling `get_presale_info`
raising), the wall clock, the gas-price poll, the chain outcomes for a buy
attempt, and `raises`, modelling an unexpected exception in the loop body
that reaches the outer except handler (src/presale_bot.py, lines 288-291). -/
structure IterEnv where
  fetch : Option PresaleInfo
  now : Nat
  gasFetch : Option Nat
  execEnv : ExecEnv
  raises : Bool
deriving DecidableEq, Repr

/-- How one loop iteration ends: `exit` for the `break` after a successful
buy, `next sleeps` for continuing with the listed `asyncio.sleep` calls. -/
inductive IterOutcome where
  | exit : IterOutcome
  | next : List Nat → IterOutcome
deriving DecidableEq, Repr

/-- Observable outcome of one iteration of `monitor_presale_conditions`:
how it ended, whether `execute_buy_transaction` was invoked, whether that
invocation returned `True`, and with which ETH amount it was invoked. -/
structure IterResult where
  outcome : IterOutcome
  buyAttempted : Bool
  buySucceeded : Bool
  buyAmount : Rat
deriving DecidableEq, Repr

/-- One iteration of the body of `ArbitrumPresaleBot.monitor_presale_conditions`
(src/presale_bot.py, lines 242-291).  An unexpected exception (`env.raises`)
is handled by the outer except: sleep 10 seconds and continue.  Otherwise the
body validates the presale, waits for the start time (`prepare_for_presale`
has no effect on the modelled state and its result is ignored, lines 255-263),
and on an active presale with a positive buy amount and acceptable gas invokes
`execute_buy_transaction`, breaking out of the loop exactly when it returns
`True`.  Paths that fall through the conditionals reach the
`sleep(MONITOR_INTERVAL)` at line 286. -/
def monitor_step (cfg : Config) (env : IterEnv) (s : BotState) : IterResult × BotState :=
  if env.raises then (⟨.next [10], false, false, 0⟩, s)
  else
    match validate_presale_contract env.fetch env.now with
    | none => (⟨.next [cfg.MONITOR_INTERVAL], false, false, 0⟩, s)
    | some presale_info =>
      if env.now < presale_info.presale_start then
        (⟨.next [min (presale_info.presale_start - env.now) 10], false, false, 0⟩, s)
      else if presale_info.is_active then
        let buy_amount := calculate_optimal_buy_amount cfg presale_info
        if 0 < buy_amount then
          if is_gas_acceptable cfg (get_current_gas_price cfg env.gasFetch) then
            let res := execute_buy_transaction cfg env.execEnv buy_amount s
            if res.1 then (⟨.exit, true, true, buy_amount⟩, res.2)
            else (⟨.next [cfg.MONITOR_INTERVAL], true, false, buy_amount⟩, res.2)
          else (⟨.next [5, cfg.MONITOR_INTERVAL], false, false, 0⟩, s)
        else (⟨.next [10, cfg.MONITOR_INTERVAL], false, false, 0⟩, s)
      else (⟨.next [cfg.MONITOR_INTERVAL], false, false, 0⟩, s)

/-- The `while self.is_running` loop of `monitor_presale_conditions`
(src/presale_bot.py, lines 240-291).  Each list element is the environment of
one iteration; the list ending models `is_running` turning false (or the
process stopping).  The loop stops early exactly when an iteration ends in
`exit`, i.e. at the `break` after a successful buy. -/
def monitor_presale_conditions (cfg : Config) :
    List IterEnv → BotState → List IterResult × BotState
  | [], s => ([], s)
  | e :: es, s =>
    let r := monitor_step cfg e s
    match r.1.outcome with
    | .exit => ([r.1], r.2)
    | .next _ =>
      let rest := monitor_presale_conditions cfg es r.2
      (r.1 :: rest.1, rest.2)

/-- The default configuration values of `src/config.py` (lines 16-28); used as
a concrete configuration for witnesses. -/
def cfgDefault : Config :=
  { MAX_GAS_PRICE := 100000000
    GAS_LIMIT := 500000
    PRIORITY_FEE := 1000000000
    TOKEN_AMOUNT := 1 / 10
    MONITOR_INTERVAL := 5
    WALLET_ADDRESS := "wallet"
    PRESALE_CONTRACT_ADDRESS := "presale" }

/-- C8: when fetching the network gas price raises, `get_current_gas_price`
returns `config.MAX_GAS_PRICE`, and `is_gas_acceptable` accepts that value,
so a failed gas-price query never blocks a buy on gas grounds. -/
theorem gas_price_failure_fails_open (cfg : Config) :
    get_current_gas_price cfg none = cfg.MAX_GAS_PRICE ∧
    is_gas_acceptable cfg (get_current_gas_price cfg none) = true := by
  refine ⟨rfl, ?_⟩
  simp [get_current_gas_price, is_gas_acceptable]

/-- C6: `optimize_gas_for_transaction` returns `maxFeePerGas =
min(base fee + PRIORITY_FEE, MAX_GAS_PRICE)` and gas limit `estimated * 1.2`
when estimation succeeds, falls back to `MAX_GAS_PRICE` / `GAS_LIMIT` when
`estimate_gas` raises, and in every case `maxFeePerGas ≤ MAX_GAS_PRICE`. -/
theorem optimize_gas_respects_ceiling (cfg : Config)
    (estimatedGas baseFee : Option Nat) :
    (∀ g b, estimatedGas = some g → baseFee = some b →
      (optimize_gas_for_transaction cfg estimatedGas baseFee).maxFeePerGas
          = min (b + cfg.PRIORITY_FEE) cfg.MAX_GAS_PRICE ∧
      (optimize_gas_for_transaction cfg estimatedGas baseFee).gas = g * 6 / 5) ∧
    (estimatedGas = none →
      (optimize_gas_for_transaction cfg estimatedGas baseFee).maxFeePerGas
          = cfg.MAX_GAS_PRICE ∧
      (optimize_gas_for_transaction cfg estimatedGas baseFee).gas = cfg.GAS_LIMIT) ∧
    (optimize_gas_for_transaction cfg estimatedGas baseFee).maxFeePerGas
        ≤ cfg.MAX_GAS_PRICE := by
  refine ⟨?_, ?_, ?_⟩
  · rintro g b rfl rfl
    simp [optimize_gas_for_transaction, get_arbitrum_gas_estimate]
  · rintro rfl
    simp [optimize_gas_for_transaction]
  · cases estimatedGas <;> cases baseFee <;>
      simp [optimize_gas_for_transaction, get_arbitrum_gas_estimate]

/-- Witness for C6: both the success case and the fallback case of
`optimize_gas_respects_ceiling` at concrete inputs. -/
theorem optimize_gas_respects_ceiling_witness :
    ((optimize_gas_for_transaction cfgDefault (some 100) (some 7)).maxFeePerGas
        = min (7 + cfgDefault.PRIORITY_FEE) cfgDefault.MAX_GAS_PRICE ∧
     (optimize_gas_for_transaction cfgDefault (some 100) (some 7)).gas = 100 * 6 / 5) ∧
    ((optimize_gas_for_transaction cfgDefault none (some 7)).maxFeePerGas
        = cfgDefault.MAX_GAS_PRICE ∧
     (optimize_gas_for_transaction cfgDefault none (some 7)).gas
        = cfgDefault.GAS_LIMIT) :=
  ⟨(optimize_gas_respects_ceiling cfgDefault (some 100) (some 7)).1 100 7 rfl rfl,
   (optimize_gas_respects_ceiling cfgDefault none (some 7)).2.1 rfl⟩

/-- C3: `validate_presale_contract` returns the fetched presale info exactly
when the presale is active, the current time is not past `presale_end`, and
`total_raised` is strictly below `hard_cap`; in every other case, including a
raising fetch (`fetch = none`), it returns `False` (here `none`). -/
theorem validate_presale_contract_iff (fetch : Option PresaleInfo)
    (current_time : Nat) (info : PresaleInfo) :
    validate_presale_contract fetch current_time = some info ↔
      (fetch = some info ∧ info.is_active = true ∧
       current_time ≤ info.presale_end ∧
       info.total_raised < info.hard_cap) := by
  cases fetch with
  | none => simp [validate_presale_contract]
  | some i =>
    simp only [validate_presale_contract]
    split_ifs with h1 h2 h3 <;>
      constructor <;>
      rintro ⟨⟩ <;>
      simp_all [Nat.not_lt, Nat.not_le] <;>
      omega

/-- C10: `check_wallet_balance` returns `True` exactly when the fetched wei
balance, converted to ETH, is at least `TOKEN_AMOUNT + 0.01`; a raising
balance fetch or an insufficient balance yields `False`. -/
theorem check_wallet_balance_iff (cfg : Config) (balanceFetch : Option Nat) :
    check_wallet_balance cfg balanceFetch = true ↔
      ∃ balance, balanceFetch = some balance ∧
        cfg.TOKEN_AMOUNT + 1 / 100 ≤ (balance : Rat) / 10 ^ 18 := by
  cases balanceFetch with
  | none => simp [check_wallet_balance]
  | some balance => simp [check_wallet_balance, not_lt]

/-- A presale state with 1 ETH of allocation left: hard cap 2 ETH
(2·10^18 wei), total raised 1 ETH (10^18 wei). -/
def infoUnitBug : PresaleInfo :=
  { token_address := "token"
    presale_start := 0
    presale_end := 1000000
    soft_cap := 10 ^ 18
    hard_cap := 2 * 10 ^ 18
    total_raised := 10 ^ 18
    is_active := true
    token_price := 1 }

/-- C2: with 1 ETH of allocation remaining and `TOKEN_AMOUNT = 0.1` ETH the
source returns 10^-19 ETH, not `min(TOKEN_AMOUNT, remaining in ETH) = 0.1`
ETH: `remaining` is already in wei, so `to_wei(remaining, 'ether')` scales it
by a spurious 10^18 and the final `from_wei` divides `TOKEN_AMOUNT` by 10^18. -/
theorem calculate_optimal_buy_amount_unit_bug :
    calculate_optimal_buy_amount cfgDefault infoUnitBug = 1 / 10 ^ 19 ∧
    calculate_optimal_buy_amount cfgDefault infoUnitBug ≠
      min cfgDefault.TOKEN_AMOUNT
        (((infoUnitBug.hard_cap : Rat) - (infoUnitBug.total_raised : Rat)) / 10 ^ 18) := by
  constructor <;>
    norm_num [calculate_optimal_buy_amount, cfgDefault, infoUnitBug, MAX_WEI, min_def]

/-- Helper: an iteration reports a successful buy exactly when it ends with
the `break`, i.e. with outcome `exit`. -/
lemma monitor_step_exit_iff_success (cfg : Config) (env : IterEnv) (s : BotState) :
    (monitor_step cfg env s).1.outcome = IterOutcome.exit ↔
    (monitor_step cfg env s).1.buySucceeded = true := by
  by_cases hr : env.raises
  · simp [monitor_step, hr]
  · rcases hval : validate_presale_contract env.fetch env.now with _ | info
    · simp [monitor_step, hr, hval]
    · by_cases hstart : env.now < info.presale_start
      · simp [monitor_step, hr, hval, hstart]
      · by_cases hact : info.is_active
        · by_cases hpos : 0 < calculate_optimal_buy_amount cfg info
          · by_cases hgas :
                is_gas_acceptable cfg (get_current_gas_price cfg env.gasFetch) = true
            · by_cases hexec :
                  (execute_buy_transaction cfg env.execEnv
                    (calculate_optimal_buy_amount cfg info) s).1 = true
              · simp [monitor_step, hr, hval, hstart, hact, hpos, hgas, hexec]
              · simp [monitor_step, hr, hval, hstart, hact, hpos, hgas, hexec]
            · simp [monitor_step, hr, hval, hstart, hact, hpos, hgas]
          · simp [monitor_step, hr, hval, hstart, hact, hpos]
        · simp [monitor_step, hr, hval, hstart, hact]

/-- C1: `execute_buy_transaction` is invoked in a loop iteration only when the
freshly polled presale state passes validation with `is_active` true, the
computed buy amount is strictly positive, and `is_gas_acceptable` holds of the
current gas price; whenever any of these fails, no buy is submitted. -/
theorem buy_only_under_conditions (cfg : Config) (env : IterEnv) (s : BotState) :
    (monitor_step cfg env s).1.buyAttempted = true →
      env.raises = false ∧
      ∃ info, validate_presale_contract env.fetch env.now = some info ∧
        info.is_active = true ∧
        0 < calculate_optimal_buy_amount cfg info ∧
        is_gas_acceptable cfg (get_current_gas_price cfg env.gasFetch) = true := by
  intro h
  by_cases hr : env.raises
  · simp [monitor_step, hr] at h
  · rcases hval : validate_presale_contract env.fetch env.now with _ | info
    · simp [monitor_step, hr, hval] at h
    · refine ⟨by simpa using hr, info, rfl, ?_⟩
      by_cases hstart : env.now < info.presale_start
      · simp [monitor_step, hr, hval, hstart] at h
      · by_cases hact : info.is_active
        · by_cases hpos : 0 < calculate_optimal_buy_amount cfg info
          · by_cases hgas :
                is_gas_acceptable cfg (get_current_gas_price cfg env.gasFetch) = true
            · exact ⟨hact, hpos, hgas⟩
            · simp [monitor_step, hr, hval, hstart, hact, hpos, hgas] at h
          · simp [monitor_step, hr, hval, hstart, hact, hpos] at h
        · simp [monitor_step, hr, hval, hstart, hact] at h

/-- Helper: an unexpected exception in the loop body is handled by sleeping
10 seconds and continuing (src/presale_bot.py, lines 288-291). -/
lemma monitor_step_raises (cfg : Config) (env : IterEnv) (s : BotState)
    (h : env.raises = true) :
    (monitor_step cfg env s).1.outcome = IterOutcome.next [10] := by
  simp [monitor_step, h]

/-- Helper: a failed validation makes the iteration sleep `MONITOR_INTERVAL`
seconds and continue (src/presale_bot.py, lines 246-249). -/
lemma monitor_step_invalid (cfg : Config) (env : IterEnv) (s : BotState)
    (hr : env.raises = false)
    (hval : validate_presale_contract env.fetch env.now = none) :
    (monitor_step cfg env s).1.outcome = IterOutcome.next [cfg.MONITOR_INTERVAL] := by
  simp [monitor_step, hr, hval]

/-- Helper: shape of a full loop trace.  Every iteration before the last
reports no successful buy, at most one iteration in the trace reports a
successful buy, and if the loop stopped before exhausting its environments
(i.e. before `is_running` went false) the trace ends with a successful buy. -/
lemma monitor_loop_shape (cfg : Config) : ∀ (envs : List IterEnv) (s : BotState),
    (∀ r ∈ (monitor_presale_conditions cfg envs s).1.dropLast, r.buySucceeded = false) ∧
    List.countP (fun r => r.buySucceeded) (monitor_presale_conditions cfg envs s).1 ≤ 1 ∧
    ((monitor_presale_conditions cfg envs s).1.length < envs.length →
      ∃ rs' r, (monitor_presale_conditions cfg envs s).1 = rs' ++ [r] ∧
        r.buySucceeded = true) := by
  intro envs
  induction envs with
  | nil =>
    intro s
    simp [monitor_presale_conditions]
  | cons e es ih =>
    intro s
    rcases hout : (monitor_step cfg e s).1.outcome with _ | sleeps
    · have hsucc : (monitor_step cfg e s).1.buySucceeded = true :=
        (monitor_step_exit_iff_success cfg e s).1 hout
      simp only [monitor_presale_conditions, hout]
      refine ⟨by simp, by simp [List.countP_cons, hsucc], fun _ => ?_⟩
      exact ⟨[], (monitor_step cfg e s).1, rfl, hsucc⟩
    · have hnsucc : (monitor_step cfg e s).1.buySucceeded = false := by
        rcases h : (monitor_step cfg e s).1.buySucceeded
        · rfl
        · have hexit := (monitor_step_exit_iff_success cfg e s).2 h
          rw [hout] at hexit
          cases hexit
      obtain ⟨ih1, ih2, ih3⟩ := ih (monitor_step cfg e s).2
      simp only [monitor_presale_conditions, hout]
      refine ⟨?_, ?_, ?_⟩
      · intro r hr
        rcases hrest : (monitor_presale_conditions cfg es (monitor_step cfg e s).2).1
          with _ | ⟨b, l⟩
        · rw [hrest] at hr
          simp at hr
        · rw [hrest] at hr
          rw [List.dropLast_cons₂] at hr
          rcases List.mem_cons.1 hr with rfl | hr2
          · exact hnsucc
          · apply ih1
            rw [hrest]
            exact hr2
      · simp only [List.countP_cons, hnsucc]
        simpa using ih2
      · intro hlen
        simp only [List.length_cons, Nat.succ_lt_succ_iff] at hlen
        obtain ⟨rs', r, heq, hsucc⟩ := ih3 hlen
        exact ⟨(monitor_step cfg e s).1 :: rs', r, by rw [heq, List.cons_append], hsucc⟩

/-- C4: the loop backs off and retries on transient failures.  An iteration
whose validation fails sleeps `MONITOR_INTERVAL` seconds and continues, an
iteration whose body raises sleeps 10 seconds and continues, and while
`is_running` stays true (environments remain) the loop stops early only with
a trace ending in a successful buy transaction. -/
theorem monitor_retries_on_failure (cfg : Config) :
    (∀ env s, env.raises = true →
      (monitor_step cfg env s).1.outcome = IterOutcome.next [10]) ∧
    (∀ env s, env.raises = false →
      validate_presale_contract env.fetch env.now = none →
      (monitor_step cfg env s).1.outcome = IterOutcome.next [cfg.MONITOR_INTERVAL]) ∧
    (∀ envs s, (monitor_presale_conditions cfg envs s).1.length < envs.length →
      ∃ rs' r, (monitor_presale_conditions cfg envs s).1 = rs' ++ [r] ∧
        r.buySucceeded = true) :=
  ⟨fun env s h => monitor_step_raises cfg env s h,
   fun env s hr hval => monitor_step_invalid cfg env s hr hval,
   fun envs s => (monitor_loop_shape cfg envs s).2.2⟩

/-- C5: at most one successful buy per run.  As soon as
`execute_buy_transaction` returns `True` the iteration ends in the `break`
(`exit`), no iteration before the last one reports a successful buy, and a
whole trace contains at most one successful buy. -/
theorem at_most_one_successful_buy (cfg : Config) :
    (∀ env s, (monitor_step cfg env s).1.buySucceeded = true →
      (monitor_step cfg env s).1.outcome = IterOutcome.exit) ∧
    (∀ envs s, ∀ r ∈ (monitor_presale_conditions cfg envs s).1.dropLast,
      r.buySucceeded = false) ∧
    (∀ envs s, List.countP (fun r => r.buySucceeded)
      (monitor_presale_conditions cfg envs s).1 ≤ 1) :=
  ⟨fun env s h => (monitor_step_exit_iff_success cfg env s).2 h,
   fun envs s => (monitor_loop_shape cfg envs s).1,
   fun envs s => (monitor_loop_shape cfg envs s).2.1⟩

/-- C7 (amended): `execute_buy_transaction` returns `True` exactly when the
transaction is built, signed and sent without an exception, the confirmation
receipt has status 1, and the subsequent token-amount calculation succeeds;
in every other case (including a reverted transaction or an exception in any
stage) it returns `False`.  It is a total function of its inputs: no
exception propagates. -/
theorem execute_buy_true_iff (cfg : Config) (env : ExecEnv) (amt : Rat)
    (s : BotState) :
    (execute_buy_transaction cfg env amt s).1 = true ↔
      (env.nonceFetch.isSome = true ∧ env.signOk = true ∧ env.sendOk = true ∧
       ∃ rc, env.receipt = some rc ∧ rc.status = 1 ∧
         (calculate_tokens_for_eth env.tokensPerEth env.tokenPrice amt).isSome
           = true) := by
  rcases hn : env.nonceFetch with _ | nonce
  · simp [execute_buy_transaction, build_buy_transaction, hn]
  · rcases hsign : env.signOk
    · simp [execute_buy_transaction, build_buy_transaction, hn, hsign]
    · rcases hsend : env.sendOk
      · simp [execute_buy_transaction, build_buy_transaction, hn, hsign, hsend]
      · rcases hrec : env.receipt with _ | rc
        · simp [execute_buy_transaction, build_buy_transaction, hn, hsign, hsend, hrec]
        · by_cases hst : rc.status = 1
          · rcases htok : calculate_tokens_for_eth env.tokensPerEth env.tokenPrice amt
              with _ | tok
            · simp [execute_buy_transaction, build_buy_transaction, hn, hsign, hsend,
                hrec, hst, htok]
            · simp [execute_buy_transaction, build_buy_transaction, hn, hsign, hsend,
                hrec, hst, htok]
          · simp [execute_buy_transaction, build_buy_transaction, hn, hsign, hsend,
              hrec, hst]

/-- A buy attempt whose transaction confirms with status 1 but where both
token-amount queries (`getTokensForEth`, `getTokenPrice`) raise. -/
def execEnvTokensFail : ExecEnv :=
  { gasFetch := some 50
    nonceFetch := some 0
    estimatedGas := some 100000
    baseFee := some 10
    signOk := true
    sendOk := true
    txHash := 1
    receipt := some { status := 1, blockNumber := 10, gasUsed := 21000 }
    tokensPerEth := none
    tokenPrice := none }

/-- C7 counterexample: a transaction whose confirmation receipt has status 1,
yet `execute_buy_transaction` returns `False`, because the token calculation
after confirmation raises (src/presale_bot.py line 201, src/contracts.py
line 185) and lands in the except branch.  This refutes "returns True if and
only if the receipt has status 1". -/
theorem execute_buy_status_one_returns_false :
    (execute_buy_transaction cfgDefault execEnvTokensFail (1 / 10) initBotState).1
        = false ∧
    execEnvTokensFail.receipt
        = some { status := 1, blockNumber := 10, gasUsed := 21000 } := by
  exact ⟨rfl, rfl⟩

/-- A fully successful buy attempt: every chain call succeeds and the
receipt has status 1. -/
def execEnvOk : ExecEnv :=
  { gasFetch := some 50
    nonceFetch := some 0
    estimatedGas := some 100000
    baseFee := some 10
    signOk := true
    sendOk := true
    txHash := 1
    receipt := some { status := 1, blockNumber := 10, gasUsed := 21000 }
    tokensPerEth := some 1000
    tokenPrice := some 1 }

/-- C9: the transaction-history discipline of `execute_buy_transaction`.
Assuming `last_transaction` points at the last history entry (true of the
initial state), after any call the pointer still does; the history either is
unchanged or grew by exactly one appended record, the latter only when the
receipt has status 1 and the call returned `True`; a `False` return leaves
the state unchanged (so `last_transaction` stays `None` while the history is
empty); and `get_status` reports `transaction_count` equal to the history
length. -/
theorem transaction_history_discipline (cfg : Config) (env : ExecEnv)
    (amt : Rat) (s : BotState)
    (hinv : s.last_transaction = s.transaction_history.getLast?) :
    ((execute_buy_transaction cfg env amt s).2.last_transaction
        = (execute_buy_transaction cfg env amt s).2.transaction_history.getLast?) ∧
    ((execute_buy_transaction cfg env amt s).2 = s ∨
      ∃ tx rc, env.receipt = some rc ∧ rc.status = 1 ∧
        (execute_buy_transaction cfg env amt s).1 = true ∧
        (execute_buy_transaction cfg env amt s).2.transaction_history
            = s.transaction_history ++ [tx] ∧
        (execute_buy_transaction cfg env amt s).2.last_transaction = some tx) ∧
    ((execute_buy_transaction cfg env amt s).1 = false →
      (execute_buy_transaction cfg env amt s).2 = s) ∧
    ((get_status cfg true (execute_buy_transaction cfg env amt s).2).transaction_count
        = (execute_buy_transaction cfg env amt s).2.transaction_history.length) ∧
    (initBotState.last_transaction = none ∧ initBotState.transaction_history = []) := by
  rcases hn : env.nonceFetch with _ | nonce
  · simp [execute_buy_transaction, build_buy_transaction, hn, hinv, get_status,
      initBotState]
  · rcases hsign : env.signOk
    · simp [execute_buy_transaction, build_buy_transaction, hn, hsign, hinv,
        get_status, initBotState]
    · rcases hsend : env.sendOk
      · simp [execute_buy_transaction, build_buy_transaction, hn, hsign, hsend,
          hinv, get_status, initBotState]
      · rcases hrec : env.receipt with _ | rc
        · simp [execute_buy_transaction, build_buy_transaction, hn, hsign, hsend,
            hrec, hinv, get_status, initBotState]
        · by_cases hst : rc.status = 1
          · rcases htok : calculate_tokens_for_eth env.tokensPerEth env.tokenPrice amt
              with _ | tok
            · simp [execute_buy_transaction, build_buy_transaction, hn, hsign, hsend,
                hrec, hst, htok, hinv, get_status, initBotState]
            · have hexec : execute_buy_transaction cfg env amt s =
                  (true,
                   { last_transaction := some
                       { tx_hash := env.txHash, block_number := rc.blockNumber
                         gas_used := rc.gasUsed, eth_amount := amt
                         tokens_received := tok }
                     transaction_history := s.transaction_history ++
                       [{ tx_hash := env.txHash, block_number := rc.blockNumber
                          gas_used := rc.gasUsed, eth_amount := amt
                          tokens_received := tok }] }) := by
                simp [execute_buy_transaction, build_buy_transaction, hn, hsign,
                  hsend, hrec, hst, htok]
              rw [hexec]
              refine ⟨by simp [List.getLast?_concat],
                Or.inr ⟨_, rc, rfl, hst, rfl, rfl, rfl⟩, ?_, rfl, rfl, rfl⟩
              intro habs
              simp at habs
          · simp [execute_buy_transaction, build_buy_transaction, hn, hsign, hsend,
              hrec, hst, hinv, get_status, initBotState]
/-- A loop-iteration environment in which every condition for a buy holds
and the buy succeeds. -/
def iterEnvOk : IterEnv :=
  { fetch := some infoUnitBug
    now := 5
    gasFetch := some 50
    execEnv := execEnvOk
    raises := false }

/-- An iteration whose body raises an unexpected exception. -/
def iterEnvRaises : IterEnv :=
  { iterEnvOk with raises := true }

/-- An iteration in which fetching the presale info raises, so validation
fails. -/
def iterEnvNoFetch : IterEnv :=
  { iterEnvOk with fetch := none }

/-- The transaction record produced by the successful buy of `execEnvOk`
for 10^-19 ETH. -/
def txOk : TxRecord :=
  { tx_hash := 1
    block_number := 10
    gas_used := 21000
    eth_amount := 1 / 10 ^ 19
    tokens_received := 1 / 10 ^ 16 }

/-- Helper: the buy amount the source computes for `infoUnitBug` under the
default configuration. -/
lemma calc_amount_eval :
    calculate_optimal_buy_amount cfgDefault infoUnitBug = 1 / 10 ^ 19 := by
  norm_num [calculate_optimal_buy_amount, cfgDefault, infoUnitBug, MAX_WEI, min_def]

/-- Helper: evaluation of a fully successful `execute_buy_transaction`. -/
lemma execute_ok_eval :
    execute_buy_transaction cfgDefault execEnvOk (1 / 10 ^ 19) initBotState
      = (true, { last_transaction := some txOk, transaction_history := [txOk] }) := by
  norm_num [execute_buy_transaction, build_buy_transaction, calculate_tokens_for_eth,
    execEnvOk, cfgDefault, initBotState, txOk]

/-- Helper: evaluation of a fully successful loop iteration. -/
lemma monitor_step_ok_eval :
    monitor_step cfgDefault iterEnvOk initBotState
      = (⟨IterOutcome.exit, true, true, 1 / 10 ^ 19⟩,
         { last_transaction := some txOk, transaction_history := [txOk] }) := by
  have hval : validate_presale_contract iterEnvOk.fetch iterEnvOk.now
      = some infoUnitBug := by
    simp [iterEnvOk, validate_presale_contract, infoUnitBug]
  have hexe : iterEnvOk.execEnv = execEnvOk := rfl
  simp only [monitor_step, hval, hexe]
  simp only [calc_amount_eval, execute_ok_eval]
  norm_num [iterEnvOk, infoUnitBug, cfgDefault, is_gas_acceptable,
    get_current_gas_price]

/-- Helper: evaluation of an iteration whose presale-info fetch raises. -/
lemma monitor_step_nofetch_eval :
    monitor_step cfgDefault iterEnvNoFetch initBotState
      = (⟨IterOutcome.next [5], false, false, 0⟩, initBotState) := by
  norm_num [monitor_step, iterEnvNoFetch, iterEnvOk, validate_presale_contract,
    cfgDefault]

/-- Helper: a two-iteration run that succeeds immediately. -/
lemma loop_two_ok_eval :
    monitor_presale_conditions cfgDefault [iterEnvOk, iterEnvOk] initBotState
      = ([⟨IterOutcome.exit, true, true, 1 / 10 ^ 19⟩],
         { last_transaction := some txOk, transaction_history := [txOk] }) := by
  simp [monitor_presale_conditions, monitor_step_ok_eval]

/-- Helper: a run with one failed validation followed by a successful buy. -/
lemma loop_mixed_eval :
    monitor_presale_conditions cfgDefault [iterEnvNoFetch, iterEnvOk] initBotState
      = ([⟨IterOutcome.next [5], false, false, 0⟩,
          ⟨IterOutcome.exit, true, true, 1 / 10 ^ 19⟩],
         { last_transaction := some txOk, transaction_history := [txOk] }) := by
  simp [monitor_presale_conditions, monitor_step_nofetch_eval, monitor_step_ok_eval]

/-- Witness for C1: a concrete iteration that attempts a buy, with all three
conditions established by the theorem. -/
theorem buy_only_under_conditions_witness :
    (monitor_step cfgDefault iterEnvOk initBotState).1.buyAttempted = true ∧
    (iterEnvOk.raises = false ∧
     ∃ info, validate_presale_contract iterEnvOk.fetch iterEnvOk.now = some info ∧
       info.is_active = true ∧
       0 < calculate_optimal_buy_amount cfgDefault info ∧
       is_gas_acceptable cfgDefault
         (get_current_gas_price cfgDefault iterEnvOk.gasFetch) = true) :=
  ⟨by simp [monitor_step_ok_eval],
   buy_only_under_conditions cfgDefault iterEnvOk initBotState
     (by simp [monitor_step_ok_eval])⟩

/-- Witness for C4: a raising iteration sleeps 10 seconds, an iteration with
failed validation sleeps `MONITOR_INTERVAL` seconds, and a run that stops
before exhausting its environments ends in a successful buy. -/
theorem monitor_retries_on_failure_witness :
    (monitor_step cfgDefault iterEnvRaises initBotState).1.outcome
        = IterOutcome.next [10] ∧
    (monitor_step cfgDefault iterEnvNoFetch initBotState).1.outcome
        = IterOutcome.next [cfgDefault.MONITOR_INTERVAL] ∧
    (∃ rs' r,
      (monitor_presale_conditions cfgDefault [iterEnvOk, iterEnvOk] initBotState).1
          = rs' ++ [r] ∧ r.buySucceeded = true) :=
  ⟨(monitor_retries_on_failure cfgDefault).1 iterEnvRaises initBotState rfl,
   (monitor_retries_on_failure cfgDefault).2.1 iterEnvNoFetch initBotState rfl rfl,
   (monitor_retries_on_failure cfgDefault).2.2 [iterEnvOk, iterEnvOk] initBotState
     (by rw [loop_two_ok_eval]; norm_num)⟩

/-- Witness for C5: a concrete successful iteration ends in `exit`, and in a
concrete two-iteration trace the non-final iteration reports no success. -/
theorem at_most_one_successful_buy_witness :
    (monitor_step cfgDefault iterEnvOk initBotState).1.outcome = IterOutcome.exit ∧
    (monitor_step cfgDefault iterEnvNoFetch initBotState).1.buySucceeded = false :=
  ⟨(at_most_one_successful_buy cfgDefault).1 iterEnvOk initBotState
     (by simp [monitor_step_ok_eval]),
   (at_most_one_successful_buy cfgDefault).2.1 [iterEnvNoFetch, iterEnvOk]
     initBotState (monitor_step cfgDefault iterEnvNoFetch initBotState).1
     (by simp [loop_mixed_eval, monitor_step_nofetch_eval])⟩

/-- Witness for C9: starting from the initial state (which satisfies the
pointer invariant), a concrete successful buy appends exactly one record with
`last_transaction` pointing at it. -/
theorem transaction_history_discipline_witness :
    initBotState.last_transaction = initBotState.transaction_history.getLast? ∧
    ((execute_buy_transaction cfgDefault execEnvOk (1 / 10) initBotState).2
        = initBotState ∨
      ∃ tx rc, execEnvOk.receipt = some rc ∧ rc.status = 1 ∧
        (execute_buy_transaction cfgDefault execEnvOk (1 / 10) initBotState).1
            = true ∧
        (execute_buy_transaction cfgDefault execEnvOk
            (1 / 10) initBotState).2.transaction_history
            = initBotState.transaction_history ++ [tx] ∧
        (execute_buy_transaction cfgDefault execEnvOk
            (1 / 10) initBotState).2.last_transaction = some tx) :=
  ⟨rfl,
   (transaction_history_discipline cfgDefault execEnvOk (1 / 10) initBotState rfl).2.1⟩
